import Mathlib

/-!
Verification development for the FreeFlightSequencer GUI's serial telemetry
session engine.  The Python sources under `src/gui/src` are shallowly embedded:
strings become `List Char`, Python `int`/`float` become `Int`/`ℚ`, regular
expressions become terms of a small regex AST evaluated by a fuel-bounded
backtracking matcher with Python `re.search` semantics (leftmost position,
preference-ordered backtracking, case-insensitive when the source passes
`re.IGNORECASE`), and wall-clock time becomes an explicit `ℚ` argument.
-/

namespace FFS

/-! ## Basic string utilities (Python `str` methods used by the sources) -/

/-- Python whitespace characters recognised by `str.strip` (ASCII subset). -/
def isPySpace (c : Char) : Bool :=
  c = ' ' || c = '\t' || c = '\n' || c = '\x0d' || c = '\x0b' || c = '\x0c'

/-- Python `str.strip()`: drop leading and trailing whitespace. -/
def pyStrip (l : List Char) : List Char :=
  ((l.dropWhile isPySpace).reverse.dropWhile isPySpace).reverse

/-- Python `str.split(sep)` for a single-character separator: keeps empty
fields and always returns at least one field. -/
def splitOnChar (sep : Char) : List Char → List (List Char)
  | [] => [[]]
  | c :: t =>
    let r := splitOnChar sep t
    if c = sep then [] :: r
    else
      match r with
      | h :: t2 => (c :: h) :: t2
      | [] => [[c]]

/-- Python `str.startswith(p)`. -/
def startsWithL (p l : List Char) : Bool := List.isPrefixOf p l

/-- Python `p in s` substring containment. -/
def containsSub (p : List Char) : List Char → Bool
  | [] => startsWithL p []
  | c :: t => startsWithL p (c :: t) || containsSub p t

/-- ASCII lower-casing, matching CPython's behaviour on the ASCII range. -/
def lowerC (c : Char) : Char :=
  if 'A' ≤ c ∧ c ≤ 'Z' then Char.ofNat (c.toNat + 32) else c

/-- ASCII upper-casing. -/
def upperC (c : Char) : Char :=
  if 'a' ≤ c ∧ c ≤ 'z' then Char.ofNat (c.toNat - 32) else c

/-- Python `str.lower()` (ASCII range). -/
def pyLower (l : List Char) : List Char := l.map lowerC

/-- Python `str.upper()` (ASCII range). -/
def pyUpper (l : List Char) : List Char := l.map upperC

/-- Decimal digit test. -/
def isDigitC (c : Char) : Bool := '0' ≤ c ∧ c ≤ '9'

/-- Digit list to natural number, most significant first. -/
def digitsToNat (l : List Char) : Nat :=
  l.foldl (fun acc c => acc * 10 + (c.toNat - '0'.toNat)) 0

/-- Python `int(s)`: strip whitespace, optional sign, then at least one
digit; anything else raises `ValueError`, modelled as `none`. -/
def pyInt (l : List Char) : Option Int :=
  let t := pyStrip l
  match t with
  | '-' :: ds => if ds ≠ [] ∧ ds.all isDigitC then some (-(digitsToNat ds : Int)) else none
  | '+' :: ds => if ds ≠ [] ∧ ds.all isDigitC then some (digitsToNat ds : Int) else none
  | ds => if ds ≠ [] ∧ ds.all isDigitC then some (digitsToNat ds : Int) else none

/-- Python `float(s)` restricted to plain decimal literals
(optional sign, digits with at most one decimal point, at least one digit);
exponents and the `inf`/`nan` spellings never occur in the device data and
are not modelled.  Failure (`ValueError`) is `none`. -/
def pyFloat (l : List Char) : Option ℚ :=
  let t := pyStrip l
  let core := fun (ds : List Char) (sign : ℚ) =>
    match splitOnChar '.' ds with
    | [ip] => if ip ≠ [] ∧ ip.all isDigitC then some (sign * (digitsToNat ip : ℚ)) else none
    | [ip, fp] =>
      if (ip ≠ [] ∨ fp ≠ []) ∧ ip.all isDigitC ∧ fp.all isDigitC then
        some (sign * ((digitsToNat ip : ℚ) + (digitsToNat fp : ℚ) / ((10 : ℚ) ^ fp.length)))
      else none
    | _ => none
  match t with
  | '-' :: ds => core ds (-1)
  | '+' :: ds => core ds 1
  | ds => core ds 1

/-- `s.replace(String.mk [c, d], [e])` specialised to CRLF → LF. -/
def replaceCRLF : List Char → List Char
  | '\x0d' :: '\n' :: t => '\n' :: replaceCRLF t
  | c :: t => c :: replaceCRLF t
  | [] => []

/-- Remaining lone `\r` → `\n` (the second `.replace` call). -/
def replaceCR (l : List Char) : List Char :=
  l.map (fun c => if c = '\x0d' then '\n' else c)

/-! ## Regex engine

A small backtracking matcher implementing the fragment of Python `re` used by
the sources: literals, character classes, `.` (not newline), greedy and lazy
`*`/`+`/`?`, alternation, and numbered capture groups, searched leftmost-first
with Python's preference-ordered backtracking.  The matcher runs on explicit
fuel so that it is structurally recursive and kernel-computable; `reSearch`
supplies fuel that is always sufficient because every starred subpattern in
the embedded tables consumes at least one character per iteration. -/

/-- Character classes. -/
inductive CC where
  | any        -- `.` (anything but newline)
  | digit      -- `\d`
  | space      -- `\s`
  | word       -- `\w`
  | set (cs : List Char)
  | range (lo hi : Char)
  | union (a b : CC)
  | neg (a : CC)
deriving Repr

/-- Class membership ignoring case (Python `re.IGNORECASE` applies inside
classes as well); `ci = false` gives exact matching. -/
def ccMatch (ci : Bool) : CC → Char → Bool
  | .any, c => c ≠ '\n'
  | .digit, c => isDigitC c
  | .space, c => isPySpace c
  | .word, c => isDigitC c || ('a' ≤ c ∧ c ≤ 'z') || ('A' ≤ c ∧ c ≤ 'Z') || c = '_'
  | .set cs, c => cs.contains c || (ci && (cs.contains (lowerC c) || cs.contains (upperC c)))
  | .range lo hi, c =>
    (lo ≤ c ∧ c ≤ hi) || (ci && ((lo ≤ lowerC c ∧ lowerC c ≤ hi) || (lo ≤ upperC c ∧ upperC c ≤ hi)))
  | .union a b, c => ccMatch ci a c || ccMatch ci b c
  | .neg a, c => !(ccMatch ci a c)

/-- Regex AST. -/
inductive RE where
  | eps
  | lit (c : Char)
  | cls (cc : CC)
  | cat (a b : RE)
  | alt (a b : RE)
  | star (greedy : Bool) (a : RE)
  | group (idx : Nat) (a : RE)
deriving Repr

/-- Literal string regex. -/
def reStr (s : String) : RE :=
  s.data.foldr (fun c r => RE.cat (.lit c) r) RE.eps

/-- Sequence. -/
def reSeq (l : List RE) : RE := l.foldr RE.cat RE.eps

/-- Greedy `+`. -/
def rePlus (a : RE) : RE := .cat a (.star true a)

/-- Greedy `?`. -/
def reOpt (a : RE) : RE := .alt a .eps

/-- Capture values: group index paired with the captured slice.  Later
entries are shadowed by earlier ones, matching "last write wins". -/
abbrev Caps := List (Nat × List Char)

/-- Backtracking matcher in continuation-passing style.  `k` receives the
remaining input and the captures accumulated so far.  Greedy stars prefer to
iterate, lazy stars prefer to stop; star iterations that consume no input are
abandoned (our patterns never need an empty iteration). -/
def reM (ci : Bool) : Nat → RE → List Char → Caps →
    (List Char → Caps → Option Caps) → Option Caps
  | 0, _, _, _, _ => none
  | fuel + 1, re, s, caps, k =>
    match re with
    | .eps => k s caps
    | .lit c =>
      match s with
      | [] => none
      | c2 :: t =>
        if (if ci then lowerC c = lowerC c2 else c = c2) then k t caps else none
    | .cls cc =>
      match s with
      | [] => none
      | c2 :: t => if ccMatch ci cc c2 then k t caps else none
    | .cat a b => reM ci fuel a s caps (fun s2 caps2 => reM ci fuel b s2 caps2 k)
    | .alt a b =>
      match reM ci fuel a s caps k with
      | some r => some r
      | none => reM ci fuel b s caps k
    | .star g a =>
      let iter := reM ci fuel a s caps (fun s2 caps2 =>
        if s2.length < s.length then reM ci fuel (.star g a) s2 caps2 k else none)
      if g then
        match iter with
        | some r => some r
        | none => k s caps
      else
        match k s caps with
        | some r => some r
        | none => iter
    | .group idx a =>
      reM ci fuel a s caps (fun s2 caps2 =>
        k s2 ((idx, s.take (s.length - s2.length)) :: caps2))

/-- Structural size of a regex, used to compute sufficient fuel. -/
def reSize : RE → Nat
  | .eps => 1
  | .lit _ => 1
  | .cls _ => 1
  | .cat a b => reSize a + reSize b + 1
  | .alt a b => reSize a + reSize b + 1
  | .star _ a => reSize a + 1
  | .group _ a => reSize a + 1

/-- Attempt a match anchored at the start of `s`. -/
def reMatchAt (re : RE) (ci : Bool) (s : List Char) : Option Caps :=
  reM ci ((reSize re + 2) * (s.length + 2)) re s [] (fun _ caps => some caps)

/-- Python `re.search`: try every start position left to right.  Returns the
captures of the first successful match (`some []` for group-free patterns). -/
def reSearch (re : RE) (ci : Bool) : List Char → Option Caps
  | [] => reMatchAt re ci []
  | c :: t =>
    match reMatchAt re ci (c :: t) with
    | some caps => some caps
    | none => reSearch re ci t

/-- `match.group(i)`: `none` when the group did not participate. -/
def capGroup (caps : Caps) (i : Nat) : Option (List Char) :=
  match caps.find? (fun p => p.1 = i) with
  | some p => some p.2
  | none => none

/-- Common subpatterns. -/
def reAnyStar : RE := .star true (.cls .any)

/-- Lazy `.*?`. -/
def reAnyLazy : RE := .star false (.cls .any)

/-- `\d+`. -/
def reDigits : RE := rePlus (.cls .digit)

/-- `\s*`. -/
def reSpaceStar : RE := .star true (.cls .space)

/-- `[A-Z_]+`. -/
def reUpperWord : RE := rePlus (.cls (.union (.range 'A' 'Z') (.set ['_'])))

/-- `\w+`. -/
def reWordPlus : RE := rePlus (.cls .word)

/-- `(\d*\.?\d+)` body: optional integer part, optional dot, digits. -/
def reFloatNum : RE := reSeq [.star true (.cls .digit), reOpt (.lit '.'), rePlus (.cls .digit)]

/-! ## `src/gui/src/core/tab_manager.py` — TabManager

`ApplicationType`, the `detection_patterns` table, `_detect_application`
(with its 2-second debounce on `time.time()`, modelled as an explicit `ℚ`
timestamp), `route_message`'s detection half, and `reset_detection`. -/

/-- `ApplicationType` enum (shared verbatim by `parameter_monitor.py`). -/
inductive ApplicationType where
  | FLIGHT_SEQUENCER
  | GPS_AUTOPILOT
  | DEVICE_TEST
  | UNKNOWN
deriving DecidableEq, Repr

/-- `detection_patterns[FLIGHT_SEQUENCER]`, in source order. -/
def fsDetectPatterns : List RE :=
  [ reStr "[APP] FlightSequencer",
    reSeq [reStr "FlightSequencer", reAnyStar, reStr "starting"],
    reSeq [reStr "FlightSequencer", reAnyStar, reStr "ready"],
    reSeq [reStr "Motor Run Time", reAnyStar, reDigits],
    reSeq [reStr "Total Flight Time", reAnyStar, reDigits],
    reSeq [reStr "Phase", reAnyStar, reStr "COMPLETE"] ]

/-- `detection_patterns[GPS_AUTOPILOT]`, in source order. -/
def gpsDetectPatterns : List RE :=
  [ reStr "[APP] GpsAutopilot",
    reSeq [reStr "GpsAutopilot", reAnyStar, reStr "starting"],
    reSeq [reStr "GpsAutopilot", reAnyStar, reStr "initialized"],
    reStr "GPS Status Report",
    reSeq [reStr "Navigation", reAnyStar, reStr "datum", reAnyStar, reStr "set"],
    reSeq [reStr "Control", reAnyStar, reStr "autonomous", reAnyStar, reStr "mode"],
    reSeq [reStr "GPS", reAnyStar, reStr "fix", reAnyStar, reStr "acquired"],
    reSeq [reStr "Fix Status:", reAnyStar, reStr "[OK]"],
    reSeq [reStr "Satellites:", reAnyStar, reDigits, reAnyStar, reStr "tracked"],
    reSeq [reStr "Position:", reAnyStar, reDigits, .lit '.', reDigits, reAnyStar, reStr "deg"],
    reSeq [reStr "NMEA Sentences:", reAnyStar, reDigits],
    reStr "[GPS_RAW]",
    reStr "[GPS_PARSE]",
    reSeq [reStr "GPS", reAnyStar, reStr "ready", reAnyStar, reStr "for", reAnyStar, reStr "datum"],
    reSeq [reStr "System", reAnyStar, reStr "ready", reAnyStar, reStr "GPS", reAnyStar, reStr "acquiring"],
    reSeq [reStr "NAV", reAnyStar, reStr "Navigation", reAnyStar, reStr "system"] ]

/-- `detection_patterns[DEVICE_TEST]`, in source order.  Note
`Test.*PASS|FAIL` parses as `(Test.*PASS)|(FAIL)`. -/
def dtDetectPatterns : List RE :=
  [ reStr "[APP] ButtonTest",
    reStr "[APP] LedTest",
    reStr "[APP] ServoTest",
    reStr "[APP] GpsTest",
    reStr "[APP] LedButton",
    reSeq [reStr "Device", reAnyStar, reStr "Test", reAnyStar, reStr "Suite"],
    reSeq [reStr "Running", reAnyStar, reStr "test", reAnyStar, reWordPlus],
    .alt (reSeq [reStr "Test", reAnyStar, reStr "PASS"]) (reStr "FAIL"),
    reSeq [reStr "Hardware", reAnyStar, reStr "validation"] ]

/-- The full `detection_patterns` dict in insertion order. -/
def detectionPatterns : List (ApplicationType × List RE) :=
  [ (.FLIGHT_SEQUENCER, fsDetectPatterns),
    (.GPS_AUTOPILOT, gpsDetectPatterns),
    (.DEVICE_TEST, dtDetectPatterns) ]

/-- The pattern-table scan inside `_detect_application`: first application
type (in table order) with a pattern matching the message, searched with
`re.IGNORECASE`. -/
def firstDetect (msg : List Char) : Option ApplicationType :=
  detectionPatterns.findSome? (fun p =>
    if p.2.any (fun re => (reSearch re true msg).isSome) then some p.1 else none)

/-- `TabManager` detection state: `active_app` and `last_detection_time`
(initialised to `UNKNOWN` and `0`). -/
structure TMState where
  active_app : ApplicationType
  last_detection_time : ℚ
deriving DecidableEq, Repr

/-- Initial TabManager state (`__init__`). -/
def tmInit : TMState := { active_app := .UNKNOWN, last_detection_time := 0 }

/-- `_detect_application(message)` at wall-clock time `t`: debounced scan of
the pattern table.  Returns the detected type (`UNKNOWN` = no detection)
together with the updated state (`last_detection_time` is written only on a
successful match). -/
def detectApplication (s : TMState) (t : ℚ) (msg : List Char) :
    ApplicationType × TMState :=
  if t - s.last_detection_time < 2 then (.UNKNOWN, s)
  else
    match firstDetect msg with
    | some app => (app, { s with last_detection_time := t })
    | none => (.UNKNOWN, s)

/-- The detection half of `route_message(message)`: run
`_detect_application` and latch a non-`UNKNOWN` result into `active_app`. -/
def routeMessageDetect (s : TMState) (t : ℚ) (msg : List Char) : TMState :=
  let (detected, s1) := detectApplication s t msg
  if detected ≠ .UNKNOWN then
    if detected ≠ s1.active_app then { s1 with active_app := detected } else s1
  else s1

/-- `reset_detection()`: back to `UNKNOWN` with the debounce timer cleared. -/
def resetDetection (_s : TMState) : TMState :=
  { active_app := .UNKNOWN, last_detection_time := 0 }

/-! ## `src/gui/src/core/parameter_monitor.py` — ParameterMonitor -/

/-- A parameter value as stored in `current_parameters`: Python int, float,
string, bool, the `"m:s"` timer string, or the nested `test_results` dict. -/
inductive PValue where
  | int (i : Int)
  | float (q : ℚ)
  | str (s : List Char)
  | bool (b : Bool)
  | table (m : List (List Char × List Char))
deriving DecidableEq, Repr

/-- Python dict assignment `m[k] = v`: overwrite in place or append. -/
def dictSet (m : List (String × PValue)) (k : String) (v : PValue) :
    List (String × PValue) :=
  if m.any (fun p => p.1 = k) then m.map (fun p => if p.1 = k then (k, v) else p)
  else m ++ [(k, v)]

/-- Python dict assignment for the nested `test_results` dict. -/
def tableSet (m : List (List Char × List Char)) (k v : List Char) :
    List (List Char × List Char) :=
  if m.any (fun p => p.1 = k) then m.map (fun p => if p.1 = k then (k, v) else p)
  else m ++ [(k, v)]

/-- `parameter_patterns[FLIGHT_SEQUENCER]`, in source order. -/
def pmFsPatterns : List (String × RE) :=
  [ ("motor_run_time", reSeq [reStr "Motor Run Time:", reSpaceStar, .group 1 reDigits,
        reSpaceStar, reStr "second", reOpt (.lit 's')]),
    ("total_flight_time", reSeq [reStr "Total Flight Time:", reSpaceStar, .group 1 reDigits,
        reSpaceStar, reStr "second", reOpt (.lit 's')]),
    ("motor_speed", reSeq [reStr "Motor Speed:", reSpaceStar, .group 1 reDigits]),
    ("current_phase", reSeq [reStr "Phase", reAnyLazy, .group 1 reUpperWord]),
    ("flight_timer", reSeq [reStr "Time", reAnyLazy, .group 1 reDigits, .lit ':',
        .group 2 reDigits]),
    ("flights_completed", reSeq [reStr "Flight", reAnyLazy, .group 1 reDigits]) ]

/-- `parameter_patterns[GPS_AUTOPILOT]`, in source order. -/
def pmGpsPatterns : List (String × RE) :=
  [ ("orbit_radius", reSeq [reStr "Orbit Radius", reAnyLazy, .group 1 reFloatNum]),
    ("airspeed", reSeq [reStr "Airspeed", reAnyLazy, .group 1 reFloatNum]),
    ("gps_rate", reSeq [reStr "GPS Rate", reAnyLazy, .group 1 reDigits]),
    ("orbit_kp", reSeq [reStr "Orbit Kp", reAnyLazy, .group 1 reFloatNum]),
    ("track_kp", reSeq [reStr "Track Kp", reAnyLazy, .group 1 reFloatNum]),
    ("track_ki", reSeq [reStr "Track Ki", reAnyLazy, .group 1 reFloatNum]),
    ("roll_kp", reSeq [reStr "Roll Kp", reAnyLazy, .group 1 reFloatNum]),
    ("nav_mode", reSeq [reStr "Nav Mode", reAnyLazy, .group 1 reUpperWord]),
    ("flight_mode", reSeq [reStr "Flight Mode", reAnyLazy, .group 1 reUpperWord]),
    ("gps_fix", reSeq [reStr "GPS", reAnyStar, reStr "fix", reAnyLazy,
        .group 1 (.alt (reStr "true") (.alt (reStr "false") (.alt (reStr "ok") (reStr "valid"))))]),
    ("satellites", reSeq [reStr "Satellite", reAnyLazy, .group 1 reDigits]),
    ("position_n", reSeq [reStr "North", reAnyLazy, .group 1 (reSeq [reOpt (.lit '-'), reFloatNum])]),
    ("position_e", reSeq [reStr "East", reAnyLazy, .group 1 (reSeq [reOpt (.lit '-'), reFloatNum])]),
    ("range_to_datum", reSeq [reStr "Range", reAnyLazy, .group 1 reFloatNum]),
    ("bearing_to_datum", reSeq [reStr "Bearing", reAnyLazy, .group 1 reFloatNum]) ]

/-- `parameter_patterns[DEVICE_TEST]`, in source order. -/
def pmDtPatterns : List (String × RE) :=
  [ ("test_status", reSeq [reStr "Test", reAnyLazy, .group 1 reUpperWord]),
    ("test_result", reSeq [.group 1 reWordPlus, reAnyStar, reStr "test", reAnyLazy,
        .group 2 (.alt (reStr "pass") (reStr "fail"))]),
    ("button_state", reSeq [reStr "Button", reAnyLazy,
        .group 1 (.alt (reStr "pressed") (reStr "released"))]),
    ("gps_satellites", reSeq [reStr "GPS", reAnyStar, reStr "satellites", reAnyLazy,
        .group 1 reDigits]),
    ("servo_position", reSeq [reStr "Servo", reAnyStar, reStr "position", reAnyLazy,
        .group 1 reDigits]),
    ("esc_speed", reSeq [reStr "ESC", reAnyStar, reStr "speed", reAnyLazy, .group 1 reDigits]),
    ("esc_armed", reSeq [reStr "ESC", reAnyStar,
        .group 1 (.alt (reStr "armed") (reStr "disarmed"))]) ]

/-- The `parameter_patterns` table keyed by application type. -/
def pmPatterns : ApplicationType → List (String × RE)
  | .FLIGHT_SEQUENCER => pmFsPatterns
  | .GPS_AUTOPILOT => pmGpsPatterns
  | .DEVICE_TEST => pmDtPatterns
  | .UNKNOWN => []

/-- `ParameterMonitor` state: `current_parameters`, the carry-over `buffer`
for incomplete lines, and the detected `app_type`. -/
structure PMState where
  current_parameters : List (String × PValue)
  buffer : List Char
  app_type : ApplicationType
deriving DecidableEq, Repr

/-- Initial `ParameterMonitor` state (`__init__`). -/
def pmInit : PMState := { current_parameters := [], buffer := [], app_type := .UNKNOWN }

/-- Parameter names handled as plain upper-cased strings. -/
def pmStringParams : List String :=
  ["current_phase", "nav_mode", "flight_mode", "test_status", "button_state", "esc_armed"]

/-- One matched rule of `_check_for_parameters`: the per-name value
dispatch (bool / string / timer / nested test result / float / int), with
`ValueError`/`IndexError` silently skipping the rule. -/
def applyPmRule (params : List (String × PValue)) (name : String) (caps : Caps) :
    List (String × PValue) :=
  if name = "gps_fix" then
    match capGroup caps 1 with
    | some g =>
      dictSet params name (.bool (pyLower g = "true".data ∨ pyLower g = "ok".data ∨
        pyLower g = "valid".data))
    | none => params
  else if pmStringParams.contains name then
    match capGroup caps 1 with
    | some g => dictSet params name (.str (pyUpper g))
    | none => params
  else if name = "flight_timer" then
    match capGroup caps 1, capGroup caps 2 with
    | some m, some s => dictSet params name (.str (m ++ [':'] ++ s))
    | _, _ => params
  else if name = "test_result" then
    match capGroup caps 1, capGroup caps 2 with
    | some tn, some res =>
      let prev := match (params.find? (fun p => p.1 = "test_results")).map Prod.snd with
        | some (.table t) => t
        | _ => []
      dictSet params "test_results" (.table (tableSet prev (pyUpper tn) (pyUpper res)))
    | _, _ => params
  else
    match capGroup caps 1 with
    | some g =>
      if g.contains '.' then
        match pyFloat g with
        | some q => dictSet params name (.float q)
        | none => params
      else
        match pyInt g with
        | some i => dictSet params name (.int i)
        | none => params
    | none => params

/-- `_check_for_parameters(line)`: no-op when `app_type == UNKNOWN`,
otherwise every rule of the active table is searched against the line (in
table order) and each match writes its key. -/
def checkForParameters (s : PMState) (line : List Char) : PMState :=
  if s.app_type = .UNKNOWN then s
  else
    { s with current_parameters :=
        (pmPatterns s.app_type).foldl (fun params rule =>
          match reSearch rule.2 true line with
          | some caps => applyPmRule params rule.1 caps
          | none => params) s.current_parameters }

/-- `set_application_type(app_type)`: switching clears the parameters. -/
def setApplicationType (s : PMState) (app : ApplicationType) : PMState :=
  if app ≠ s.app_type then { s with app_type := app, current_parameters := [] } else s

/-- `FlightSequencer|Motor Run Time|Flight Time.*complete`. -/
def pmAutoFsRe : RE :=
  .alt (reStr "FlightSequencer") (.alt (reStr "Motor Run Time")
    (reSeq [reStr "Flight Time", reAnyStar, reStr "complete"]))

/-- `GpsAutopilot|Orbit.*Radius|Nav.*Mode|GPS.*fix`. -/
def pmAutoGpsRe : RE :=
  .alt (reStr "GpsAutopilot") (.alt (reSeq [reStr "Orbit", reAnyStar, reStr "Radius"])
    (.alt (reSeq [reStr "Nav", reAnyStar, reStr "Mode"])
      (reSeq [reStr "GPS", reAnyStar, reStr "fix"])))

/-- `Device.*Test|Running.*test|Test.*PASS|Test.*FAIL`. -/
def pmAutoDtRe : RE :=
  .alt (reSeq [reStr "Device", reAnyStar, reStr "Test"])
    (.alt (reSeq [reStr "Running", reAnyStar, reStr "test"])
      (.alt (reSeq [reStr "Test", reAnyStar, reStr "PASS"])
        (reSeq [reStr "Test", reAnyStar, reStr "FAIL"])))

/-- `_auto_detect_app_type(line)`: if/elif chain over the three signature
alternations, switching the application type on a match. -/
def autoDetectAppType (s : PMState) (line : List Char) : PMState :=
  if (reSearch pmAutoFsRe true line).isSome then
    if s.app_type ≠ .FLIGHT_SEQUENCER then setApplicationType s .FLIGHT_SEQUENCER else s
  else if (reSearch pmAutoGpsRe true line).isSome then
    if s.app_type ≠ .GPS_AUTOPILOT then setApplicationType s .GPS_AUTOPILOT else s
  else if (reSearch pmAutoDtRe true line).isSome then
    if s.app_type ≠ .DEVICE_TEST then setApplicationType s .DEVICE_TEST else s
  else s

/-- Body of the per-line loop in `process_serial_data`: strip, skip empty,
then `_check_for_parameters` followed by `_auto_detect_app_type`. -/
def pmProcessLine (s : PMState) (raw : List Char) : PMState :=
  let line := pyStrip raw
  if line = [] then s
  else autoDetectAppType (checkForParameters s line) line

/-- Walk the split lines: all but the last are processed, the last (the
incomplete tail) becomes the new buffer. -/
def pmProcessLines (s : PMState) : List (List Char) → PMState
  | [] => s
  | [last] => { s with buffer := last }
  | l :: h :: t => pmProcessLines (pmProcessLine s l) (h :: t)

/-- `process_serial_data(data)`: append to the carry-over buffer, split on
newlines, process the complete lines, retain the trailing partial line. -/
def processSerialData (s : PMState) (data : List Char) : PMState :=
  pmProcessLines { s with buffer := [] } (splitOnChar '\n' (s.buffer ++ data))

/-- `get_parameter(name)`. -/
def getParameter (s : PMState) (name : String) : Option PValue :=
  (s.current_parameters.find? (fun p => p.1 = name)).map Prod.snd

/-- `clear_parameters()`: clear the cache and the carry-over buffer. -/
def clearParametersPM (s : PMState) : PMState :=
  { s with current_parameters := [], buffer := [] }

/-! ## `src/gui/src/tabs/flight_sequencer_tab.py` — canonical parameter store

`_update_parameter_store`, `_clear_parameters`, and the `__init__` state.
History entries (`_add_history_entry`) are modelled as
`(event type, description)` pairs; the wall-clock `[HH:MM:SS]` prefix the
source prepends is presentation-only and is abstracted away. -/

/-- Shorthand: string literal to char list. -/
def cs (s : String) : List Char := s.data

/-- Decimal rendering of an integer (Python f-string `{v}`). -/
def intStr (i : Int) : List Char := (toString i).data

/-- Python `f"{n:02d}"`. -/
def pad2 (n : Nat) : List Char :=
  if n < 10 then '0' :: (toString n).data else (toString n).data

/-- `[:\s=]+`. -/
def reSepPlus : RE := rePlus (.cls (.union .space (.set [':', '='])))

/-- `Motor Run Time[:\s=]+(\d+)`. -/
def motorTimeTabRe : RE := reSeq [reStr "Motor Run Time", reSepPlus, .group 1 reDigits]

/-- `Total Flight Time[:\s=]+(\d+)`. -/
def flightTimeTabRe : RE := reSeq [reStr "Total Flight Time", reSepPlus, .group 1 reDigits]

/-- `Motor Speed[:\s=]+(\d+)`. -/
def motorSpeedTabRe : RE := reSeq [reStr "Motor Speed", reSepPlus, .group 1 reDigits]

/-- `DT Retracted[:\s=]+(\d+)`. -/
def dtRetractedRe : RE := reSeq [reStr "DT Retracted", reSepPlus, .group 1 reDigits]

/-- `DT Deployed[:\s=]+(\d+)`. -/
def dtDeployedRe : RE := reSeq [reStr "DT Deployed", reSepPlus, .group 1 reDigits]

/-- `DT Dwell[:\s=]+(\d+)`. -/
def dtDwellRe : RE := reSeq [reStr "DT Dwell", reSepPlus, .group 1 reDigits]

/-- `\[OK\]` — the only search the tab performs without `re.IGNORECASE`. -/
def okRe : RE := reStr "[OK]"

/-- `Current Phase:\s*([A-Z_]+)`. -/
def currentPhaseRe : RE := reSeq [reStr "Current Phase:", reSpaceStar, .group 1 reUpperWord]

/-- `System ready|ready for new flight`. -/
def sysReadyRe : RE := .alt (reStr "System ready") (reStr "ready for new flight")

/-- `System ARMED`. -/
def armedRe : RE := reStr "System ARMED"

/-- `LAUNCH.*Motor|Motor spooling`. -/
def launchRe : RE :=
  .alt (reSeq [reStr "LAUNCH", reAnyStar, reStr "Motor"]) (reStr "Motor spooling")

/-- `Motor at flight speed`. -/
def flightSpeedRe : RE := reStr "Motor at flight speed"

/-- `Motor.*complete.*glide`. -/
def glideRe : RE := reSeq [reStr "Motor", reAnyStar, reStr "complete", reAnyStar, reStr "glide"]

/-- `deploying DT|Flight time complete`. -/
def dtDeployTransRe : RE := .alt (reStr "deploying DT") (reStr "Flight time complete")

/-- `Dethermalizer DEPLOYED`. -/
def dtDeployedTransRe : RE := reStr "Dethermalizer DEPLOYED"

/-- `flight complete`. -/
def landingRe : RE := reStr "flight complete"

/-- `GPS Status:\s*([^()\n]+)`. -/
def gpsStatusTabRe : RE :=
  reSeq [reStr "GPS Status:", reSpaceStar, .group 1 (rePlus (.cls (.neg (.set ['(', ')', '\n']))))]

/-- `(?:Flight time|Elapsed):\s*(?:(\d+)s|(\d+):(\d+))`. -/
def fsTimerRe : RE :=
  reSeq [.alt (reStr "Flight time") (reStr "Elapsed"), .lit ':', reSpaceStar,
    .alt (reSeq [.group 1 reDigits, .lit 's'])
         (reSeq [.group 2 reDigits, .lit ':', .group 3 reDigits])]

/-- The `current_flight_params` dict. -/
structure FSParams where
  motor_run_time : Option Int
  total_flight_time : Option Int
  motor_speed : Option Int
  current_phase : List Char
  gps_state : List Char
  dt_retracted : Option Int
  dt_deployed : Option Int
  dt_dwell : Option Int
deriving DecidableEq, Repr

/-- FlightSequencer tab state touched by `_update_parameter_store` and
`_clear_parameters`: the parameter dict, the timer display string,
`last_recorded_phase`, and the flight history list. -/
structure FSTabState where
  params : FSParams
  current_timer : List Char
  last_recorded_phase : Option (List Char)
  history : List (String × List Char)
deriving DecidableEq, Repr

/-- `__init__`: the parameter store before any line is processed. -/
def fsInit : FSTabState :=
  { params := { motor_run_time := none, total_flight_time := none, motor_speed := none,
                current_phase := cs "UNKNOWN", gps_state := cs "UNKNOWN",
                dt_retracted := none, dt_deployed := none, dt_dwell := none },
    current_timer := cs "00:00",
    last_recorded_phase := none,
    history := [] }

/-- `_add_history_entry(event_type, description)` (timestamp abstracted). -/
def addHistory (s : FSTabState) (ty : String) (desc : List Char) : FSTabState :=
  { s with history := s.history ++ [(ty, desc)] }

/-- The `phase_descriptions` dict with its `get` default. -/
def phaseDescription (p : List Char) : List Char :=
  if p = cs "READY" then cs "System ready for new flight"
  else if p = cs "ARMED" then cs "System armed, ready for launch"
  else if p = cs "MOTOR_SPOOL" then cs "Motor spooling up for launch"
  else if p = cs "MOTOR_RUN" then cs "Motor running at flight speed"
  else if p = cs "GLIDE" then cs "Motor complete, entering glide phase"
  else if p = cs "DT_DEPLOY" then cs "Deploying dethermalizer"
  else if p = cs "DT_DEPLOYED" then cs "Dethermalizer deployed"
  else if p = cs "LANDING" then cs "Flight complete, landing phase"
  else cs "Phase changed to " ++ p

/-- The `gps_descriptions` dict with its `get` default. -/
def gpsDescription (g : List Char) : List Char :=
  if g = cs "AVAILABLE" then cs "GPS module detected and available"
  else if g = cs "NOT_DETECTED" then cs "GPS module not detected"
  else cs "GPS status: " ++ g

/-- The `Current Phase` regex plus the prioritized free-text fallbacks:
the value of `new_phase` in `_update_parameter_store`. -/
def newPhaseOf (data : List Char) : Option (List Char) :=
  match reSearch currentPhaseRe true data with
  | some caps => (capGroup caps 1).map pyUpper
  | none =>
    if (reSearch sysReadyRe true data).isSome then some (cs "READY")
    else if (reSearch armedRe true data).isSome then some (cs "ARMED")
    else if (reSearch launchRe true data).isSome then some (cs "MOTOR_SPOOL")
    else if (reSearch flightSpeedRe true data).isSome then some (cs "MOTOR_RUN")
    else if (reSearch glideRe true data).isSome then some (cs "GLIDE")
    else if (reSearch dtDeployTransRe true data).isSome then some (cs "DT_DEPLOY")
    else if (reSearch dtDeployedTransRe true data).isSome then some (cs "DT_DEPLOYED")
    else if (reSearch landingRe true data).isSome then some (cs "LANDING")
    else none

/-- One numeric-parameter stanza of `_update_parameter_store`: on a match,
write the value when it changed, logging a PARAM history entry first when
the line carries `[OK]` (and `logged = true`); the three `DT` stanzas
assign unconditionally without history (`logged = false`). -/
def numericStanza (re : RE) (get : FSParams → Option Int)
    (set : FSParams → Option Int → FSParams) (logged : Bool) (desc : Int → List Char)
    (s : FSTabState) (data : List Char) : FSTabState :=
  match reSearch re true data with
  | some caps =>
    match (capGroup caps 1).bind pyInt with
    | some v =>
      if logged then
        if get s.params ≠ some v then
          let s1 := if (reSearch okRe false data).isSome then addHistory s "PARAM" (desc v) else s
          { s1 with params := set s1.params (some v) }
        else s
      else { s with params := set s.params (some v) }
    | none => s
  | none => s

/-- `_update_parameter_store(data)`: the full straight-line translation. -/
def updateParameterStore (s : FSTabState) (data : List Char) : FSTabState :=
  let s := numericStanza motorTimeTabRe (fun p => p.motor_run_time)
    (fun p v => { p with motor_run_time := v }) true
    (fun v => cs "Motor run time set to " ++ intStr v ++ cs " seconds") s data
  let s := numericStanza flightTimeTabRe (fun p => p.total_flight_time)
    (fun p v => { p with total_flight_time := v }) true
    (fun v => cs "Total flight time set to " ++ intStr v ++ cs " seconds") s data
  let s := numericStanza motorSpeedTabRe (fun p => p.motor_speed)
    (fun p v => { p with motor_speed := v }) true
    (fun v => cs "Motor speed set to " ++ intStr v) s data
  let s := numericStanza dtRetractedRe (fun p => p.dt_retracted)
    (fun p v => { p with dt_retracted := v }) false (fun _ => []) s data
  let s := numericStanza dtDeployedRe (fun p => p.dt_deployed)
    (fun p v => { p with dt_deployed := v }) false (fun _ => []) s data
  let s := numericStanza dtDwellRe (fun p => p.dt_dwell)
    (fun p v => { p with dt_dwell := v }) false (fun _ => []) s data
  let s :=
    match newPhaseOf data with
    | some p =>
      if some p ≠ s.last_recorded_phase then
        let s1 := { s with params := { s.params with current_phase := p },
                           last_recorded_phase := some p }
        addHistory s1 "PHASE" (phaseDescription p)
      else s
    | none => s
  let s :=
    match reSearch gpsStatusTabRe true data with
    | some caps =>
      match capGroup caps 1 with
      | some g =>
        let gpsStatus := pyStrip g
        let newGps :=
          if containsSub (cs "available") (pyLower gpsStatus) then cs "AVAILABLE"
          else if containsSub (cs "not detected") (pyLower gpsStatus) then cs "NOT_DETECTED"
          else pyUpper gpsStatus
        if newGps ≠ s.params.gps_state then
          let s1 := addHistory s "GPS" (gpsDescription newGps)
          { s1 with params := { s1.params with gps_state := newGps } }
        else s
      | none => s
    | none => s
  match reSearch fsTimerRe true data with
  | some caps =>
    match capGroup caps 1 with
    | some g1 =>
      match pyInt g1 with
      | some secs =>
        let n := secs.toNat
        { s with current_timer := pad2 (n / 60) ++ cs ":" ++ pad2 (n % 60) }
      | none => s
    | none =>
      match capGroup caps 2, capGroup caps 3 with
      | some g2, some g3 => { s with current_timer := g2 ++ cs ":" ++ g3 }
      | _, _ => s
  | none => s

/-- `_clear_parameters()` (the disconnect-triggered clear): parameters back
to `None`, phase to `DISCONNECTED`, GPS state to `UNKNOWN`, timer reset;
`last_recorded_phase` and the history are not touched. -/
def clearParametersFS (s : FSTabState) : FSTabState :=
  { s with
    params := { motor_run_time := none, total_flight_time := none, motor_speed := none,
                current_phase := cs "DISCONNECTED", gps_state := cs "UNKNOWN",
                dt_retracted := none, dt_deployed := none, dt_dwell := none },
    current_timer := cs "00:00" }

/-! ## `_process_downloaded_data` — download buffer parse -/

/-- The "incomplete GPS record" test of the repair loop: fewer than 6 comma
fields, or a latitude/longitude field that is empty or just a minus sign. -/
def isIncompleteGps (line : List Char) : Bool :=
  let parts := splitOnChar ',' line
  if parts.length < 6 then true
  else
    let latField := parts.getD 4 []
    let lonField := parts.getD 5 []
    latField = cs "-" ∨ latField = [] ∨ lonField = cs "-" ∨ lonField = []

/-- The `while i < len(lines)` repair walk: skip blank/control lines; an
incomplete `GPS,` line is concatenated with the immediately following raw
line (both consumed), except when it is the very last line. -/
def repairLines : List (List Char) → List (List Char)
  | [] => []
  | [l0] =>
    let line := pyStrip l0
    if line = [] || startsWithL (cs "[") line || startsWithL (cs "DEBUG") line then []
    else if startsWithL (cs "GPS,") line then
      if isIncompleteGps line then [line] else [line]
    else [line]
  | l0 :: l1 :: rest =>
    let line := pyStrip l0
    if line = [] || startsWithL (cs "[") line || startsWithL (cs "DEBUG") line then
      repairLines (l1 :: rest)
    else if startsWithL (cs "GPS,") line then
      if isIncompleteGps line then (line ++ pyStrip l1) :: repairLines rest
      else line :: repairLines (l1 :: rest)
    else line :: repairLines (l1 :: rest)

/-- The normalisation pipeline in front of the repair walk: strip the
buffer, normalise CRLF and CR to LF, split on newlines. -/
def processedLines (buffer : List Char) : List (List Char) :=
  repairLines (splitOnChar '\n' (replaceCR (replaceCRLF (pyStrip buffer))))

/-- Parsed `HEADER,...` record. -/
structure FlightHeader where
  flight_id : List Char
  duration_ms : Int
  gps_available : Bool
  position_count : Int
  motor_run_time : Int
  total_flight_time : Int
  motor_speed : Int
deriving DecidableEq, Repr

/-- Parsed `GPS,...` record. -/
structure GpsRecord where
  timestamp_ms : Int
  flight_state : Int
  state_name : List Char
  latitude : ℚ
  longitude : ℚ
  altitude : ℚ
deriving DecidableEq, Repr

/-- GPS record parse for one final line: with ≥7 fields all six values must
parse (any failure skips the record); with exactly 6 fields (legacy format)
altitude defaults to 0.0.  `none` means the line contributes no record. -/
def parseGpsLine (line : List Char) : Option GpsRecord :=
  if startsWithL (cs "GPS,") line then
    let parts := splitOnChar ',' line
    if parts.length ≥ 7 then
      match pyFloat (parts.getD 6 []), pyInt (parts.getD 1 []), pyInt (parts.getD 2 []),
            pyFloat (parts.getD 4 []), pyFloat (parts.getD 5 []) with
      | some alt, some ts, some st, some lat, some lon =>
        some { timestamp_ms := ts, flight_state := st, state_name := parts.getD 3 [],
               latitude := lat, longitude := lon, altitude := alt }
      | _, _, _, _, _ => none
    else if parts.length ≥ 6 then
      match pyInt (parts.getD 1 []), pyInt (parts.getD 2 []),
            pyFloat (parts.getD 4 []), pyFloat (parts.getD 5 []) with
      | some ts, some st, some lat, some lon =>
        some { timestamp_ms := ts, flight_state := st, state_name := parts.getD 3 [],
               latitude := lat, longitude := lon, altitude := 0 }
      | _, _, _, _ => none
    else none
  else none

/-- One iteration of the final `for line in processed_lines` loop.
`HEADER,` lines with ≥8 fields parse positionally — a malformed integer
there raises `ValueError`, which the source only catches in the outer
`try`, aborting the whole parse (`Except.error`).  Malformed GPS records
are skipped via their local `try`/`continue`. -/
def parseRecStep (acc : Option FlightHeader × List GpsRecord) (line : List Char) :
    Except Unit (Option FlightHeader × List GpsRecord) :=
  if startsWithL (cs "HEADER,") line then
    let parts := splitOnChar ',' line
    if parts.length ≥ 8 then
      match pyInt (parts.getD 2 []), pyInt (parts.getD 4 []), pyInt (parts.getD 5 []),
            pyInt (parts.getD 6 []), pyInt (parts.getD 7 []) with
      | some dur, some pc, some mrt, some tft, some ms =>
        .ok (some { flight_id := parts.getD 1 [], duration_ms := dur,
                    gps_available := parts.getD 3 [] = cs "true", position_count := pc,
                    motor_run_time := mrt, total_flight_time := tft, motor_speed := ms },
             acc.2)
      | _, _, _, _, _ => .error ()
    else .ok acc
  else if startsWithL (cs "GPS,") line then
    match parseGpsLine line with
    | some r => .ok (acc.1, acc.2 ++ [r])
    | none => .ok acc
  else .ok acc

/-- The final loop over the repaired lines, propagating the uncaught
header `ValueError`. -/
def foldParse (acc : Option FlightHeader × List GpsRecord) :
    List (List Char) → Except Unit (Option FlightHeader × List GpsRecord)
  | [] => .ok acc
  | l :: t =>
    match parseRecStep acc l with
    | .ok acc2 => foldParse acc2 t
    | .error e => .error e

/-- Outcome of `_process_downloaded_data`, restricted to the decoding
contract: `completed` carries the header and record list; `failed true` is
the outer `except` path (parse exception), `failed false` the
"No valid flight data" path (missing header or zero records). -/
inductive DownloadResult where
  | completed (header : FlightHeader) (records : List GpsRecord)
  | failed (parseException : Bool)
deriving DecidableEq, Repr

/-- `_process_downloaded_data(buffer)`. -/
def processDownloadedData (buffer : List Char) : DownloadResult :=
  match foldParse (none, []) (processedLines buffer) with
  | .error _ => .failed true
  | .ok (some h, recs) => if recs ≠ [] then .completed h recs else .failed false
  | .ok (none, _) => .failed false

/-! ## `src/gui/src/communication/simple_serial.py` — byte decoding

`_monitor_serial` decodes each drained chunk with
`data.decode('utf-8', errors='ignore')`: strict UTF-8, with every malformed
maximal subpart silently dropped.  It is total (never raises). -/

/-- UTF-8 continuation byte test. -/
def isContB (b : Nat) : Bool := 0x80 ≤ b ∧ b < 0xC0

/-- Assemble a 2-byte sequence. -/
def chr2 (b c1 : Nat) : Char := Char.ofNat ((b - 0xC0) * 64 + (c1 - 0x80))

/-- Assemble a 3-byte sequence. -/
def chr3 (b c1 c2 : Nat) : Char :=
  Char.ofNat ((b - 0xE0) * 4096 + (c1 - 0x80) * 64 + (c2 - 0x80))

/-- Assemble a 4-byte sequence. -/
def chr4 (b c1 c2 c3 : Nat) : Char :=
  Char.ofNat ((b - 0xF0) * 262144 + (c1 - 0x80) * 4096 + (c2 - 0x80) * 64 + (c3 - 0x80))

/-- Valid first continuation for a 3-byte lead (excludes overlongs and
surrogates). -/
def c1ok3 (b c1 : Nat) : Bool :=
  if b = 0xE0 then 0xA0 ≤ c1 ∧ c1 < 0xC0
  else if b = 0xED then 0x80 ≤ c1 ∧ c1 < 0xA0
  else isContB c1

/-- Valid first continuation for a 4-byte lead (excludes overlongs and
values above U+10FFFF). -/
def c1ok4 (b c1 : Nat) : Bool :=
  if b = 0xF0 then 0x90 ≤ c1 ∧ c1 < 0xC0
  else if b = 0xF4 then 0x80 ≤ c1 ∧ c1 < 0x90
  else isContB c1

/-- `bytes.decode('utf-8', errors='ignore')`: total; each malformed maximal
subpart is dropped and decoding resumes at the next byte. -/
def decodeUtf8Ignore : List Nat → List Char
  | [] => []
  | [b] =>
    if b < 0x80 then [Char.ofNat b] else []
  | [b, c1] =>
    if b < 0x80 then Char.ofNat b :: decodeUtf8Ignore [c1]
    else if b < 0xC2 then decodeUtf8Ignore [c1]
    else if b < 0xE0 then
      if isContB c1 then [chr2 b c1] else decodeUtf8Ignore [c1]
    else if b < 0xF0 then
      if c1ok3 b c1 then [] else decodeUtf8Ignore [c1]
    else if b < 0xF5 then
      if c1ok4 b c1 then [] else decodeUtf8Ignore [c1]
    else decodeUtf8Ignore [c1]
  | [b, c1, c2] =>
    if b < 0x80 then Char.ofNat b :: decodeUtf8Ignore [c1, c2]
    else if b < 0xC2 then decodeUtf8Ignore [c1, c2]
    else if b < 0xE0 then
      if isContB c1 then chr2 b c1 :: decodeUtf8Ignore [c2] else decodeUtf8Ignore [c1, c2]
    else if b < 0xF0 then
      if c1ok3 b c1 then
        if isContB c2 then [chr3 b c1 c2] else decodeUtf8Ignore [c2]
      else decodeUtf8Ignore [c1, c2]
    else if b < 0xF5 then
      if c1ok4 b c1 then
        if isContB c2 then [] else decodeUtf8Ignore [c2]
      else decodeUtf8Ignore [c1, c2]
    else decodeUtf8Ignore [c1, c2]
  | b :: c1 :: c2 :: c3 :: r =>
    if b < 0x80 then Char.ofNat b :: decodeUtf8Ignore (c1 :: c2 :: c3 :: r)
    else if b < 0xC2 then decodeUtf8Ignore (c1 :: c2 :: c3 :: r)
    else if b < 0xE0 then
      if isContB c1 then chr2 b c1 :: decodeUtf8Ignore (c2 :: c3 :: r)
      else decodeUtf8Ignore (c1 :: c2 :: c3 :: r)
    else if b < 0xF0 then
      if c1ok3 b c1 then
        if isContB c2 then chr3 b c1 c2 :: decodeUtf8Ignore (c3 :: r)
        else decodeUtf8Ignore (c2 :: c3 :: r)
      else decodeUtf8Ignore (c1 :: c2 :: c3 :: r)
    else if b < 0xF5 then
      if c1ok4 b c1 then
        if isContB c2 then
          if isContB c3 then chr4 b c1 c2 c3 :: decodeUtf8Ignore r
          else decodeUtf8Ignore (c3 :: r)
        else decodeUtf8Ignore (c2 :: c3 :: r)
      else decodeUtf8Ignore (c1 :: c2 :: c3 :: r)
    else decodeUtf8Ignore (c1 :: c2 :: c3 :: r)

/-- Modelled from the spec: the spec's claimed decoding discipline
("decodes as UTF-8 with invalid-byte substitution") — identical to
`decodeUtf8Ignore` except that every malformed maximal subpart yields one
U+FFFD replacement character instead of disappearing.  The repository's
`_monitor_serial` does not implement this; it exists only to compare the
spec's words against `decodeUtf8Ignore`. -/
def decodeUtf8Replace : List Nat → List Char
  | [] => []
  | [b] =>
    if b < 0x80 then [Char.ofNat b] else [Char.ofNat 0xFFFD]
  | [b, c1] =>
    if b < 0x80 then Char.ofNat b :: decodeUtf8Replace [c1]
    else if b < 0xC2 then Char.ofNat 0xFFFD :: decodeUtf8Replace [c1]
    else if b < 0xE0 then
      if isContB c1 then [chr2 b c1] else Char.ofNat 0xFFFD :: decodeUtf8Replace [c1]
    else if b < 0xF0 then
      if c1ok3 b c1 then [Char.ofNat 0xFFFD] else Char.ofNat 0xFFFD :: decodeUtf8Replace [c1]
    else if b < 0xF5 then
      if c1ok4 b c1 then [Char.ofNat 0xFFFD] else Char.ofNat 0xFFFD :: decodeUtf8Replace [c1]
    else Char.ofNat 0xFFFD :: decodeUtf8Replace [c1]
  | [b, c1, c2] =>
    if b < 0x80 then Char.ofNat b :: decodeUtf8Replace [c1, c2]
    else if b < 0xC2 then Char.ofNat 0xFFFD :: decodeUtf8Replace [c1, c2]
    else if b < 0xE0 then
      if isContB c1 then chr2 b c1 :: decodeUtf8Replace [c2]
      else Char.ofNat 0xFFFD :: decodeUtf8Replace [c1, c2]
    else if b < 0xF0 then
      if c1ok3 b c1 then
        if isContB c2 then [chr3 b c1 c2] else Char.ofNat 0xFFFD :: decodeUtf8Replace [c2]
      else Char.ofNat 0xFFFD :: decodeUtf8Replace [c1, c2]
    else if b < 0xF5 then
      if c1ok4 b c1 then
        if isContB c2 then [Char.ofNat 0xFFFD] else Char.ofNat 0xFFFD :: decodeUtf8Replace [c2]
      else Char.ofNat 0xFFFD :: decodeUtf8Replace [c1, c2]
    else Char.ofNat 0xFFFD :: decodeUtf8Replace [c1, c2]
  | b :: c1 :: c2 :: c3 :: r =>
    if b < 0x80 then Char.ofNat b :: decodeUtf8Replace (c1 :: c2 :: c3 :: r)
    else if b < 0xC2 then Char.ofNat 0xFFFD :: decodeUtf8Replace (c1 :: c2 :: c3 :: r)
    else if b < 0xE0 then
      if isContB c1 then chr2 b c1 :: decodeUtf8Replace (c2 :: c3 :: r)
      else Char.ofNat 0xFFFD :: decodeUtf8Replace (c1 :: c2 :: c3 :: r)
    else if b < 0xF0 then
      if c1ok3 b c1 then
        if isContB c2 then chr3 b c1 c2 :: decodeUtf8Replace (c3 :: r)
        else Char.ofNat 0xFFFD :: decodeUtf8Replace (c2 :: c3 :: r)
      else Char.ofNat 0xFFFD :: decodeUtf8Replace (c1 :: c2 :: c3 :: r)
    else if b < 0xF5 then
      if c1ok4 b c1 then
        if isContB c2 then
          if isContB c3 then chr4 b c1 c2 c3 :: decodeUtf8Replace r
          else Char.ofNat 0xFFFD :: decodeUtf8Replace (c3 :: r)
        else Char.ofNat 0xFFFD :: decodeUtf8Replace (c2 :: c3 :: r)
      else Char.ofNat 0xFFFD :: decodeUtf8Replace (c1 :: c2 :: c3 :: r)
    else Char.ofNat 0xFFFD :: decodeUtf8Replace (c1 :: c2 :: c3 :: r)

/-! ## Concrete buffers and accessors used by the statements -/

/-- The records carried by a completed download (empty when failed). -/
def DownloadResult.recordsOf : DownloadResult → List GpsRecord
  | .completed _ recs => recs
  | .failed _ => []

/-- The download buffer from `src/gui/test_csv_fix.py` (`test_data`): a
header, two intact GPS records, one GPS record split by a spurious newline
inside the longitude field, and one more intact record. -/
def testFlightBuffer : List Char :=
  cs "[START_FLIGHT_DATA]\nHEADER,F_399282,231114,true,68,10,60,165\nGPS,990,4,MOTOR_RUN,39.246693,-77.196678\nGPS,2003,4,MOTOR_RUN,39.246674,-77.196716\nGPS,99001,7,POST_DT_DESCENT,39.246685,-\n77.196556\nGPS,101002,7,POST_DT_DESCENT,39.246685,-77.196571\n[END_FLIGHT_DATA]"

/-- A buffer whose HEADER line has 8 comma fields but a non-integer
`duration_ms` field, plus one perfectly valid GPS record. -/
def headerCorruptBuffer : List Char :=
  cs "HEADER,F,xx,true,5,10,60,165\nGPS,1,2,N,39.0,-77.0,100.0\n[END_FLIGHT_DATA]"

/-- A well-formed buffer whose two GPS records carry decreasing
timestamps. -/
def outOfOrderBuffer : List Char :=
  cs "HEADER,F,1,true,2,10,60,165\nGPS,500,4,A,1.0,2.0,3.0\nGPS,100,4,A,1.0,2.0,3.0\n[END_FLIGHT_DATA]"

/-! ## Helper lemmas -/

theorem splitOnChar_ne_nil (sep : Char) : ∀ l : List Char, splitOnChar sep l ≠ [] := by
  intro l
  cases l with
  | nil => simp [splitOnChar]
  | cons c t =>
    unfold splitOnChar
    by_cases h : c = sep
    · simp [h]
    · simp only [if_neg h]
      rcases splitOnChar sep t with _ | ⟨h1, t1⟩ <;> simp

theorem splitOnChar_cons (sep c : Char) (t : List Char) :
    splitOnChar sep (c :: t) =
      if c = sep then [] :: splitOnChar sep t
      else
        match splitOnChar sep t with
        | h :: t2 => (c :: h) :: t2
        | [] => [[c]] := rfl

theorem splitOnChar_append (sep : Char) : ∀ a b : List Char,
    splitOnChar sep (a ++ b) =
      (splitOnChar sep a).dropLast ++
        splitOnChar sep ((splitOnChar sep a).getLastD [] ++ b) := by
  intro a
  induction a with
  | nil => intro b; simp [splitOnChar]
  | cons c t ih =>
    intro b
    have hne := splitOnChar_ne_nil sep t
    rw [List.cons_append, splitOnChar_cons, splitOnChar_cons]
    by_cases h : c = sep
    · rw [if_pos h, if_pos h, ih b]
      rcases hsp : splitOnChar sep t with _ | ⟨h1, t1⟩
      · exact absurd hsp hne
      · simp [List.getLastD_cons]
    · rw [if_neg h, if_neg h]
      rcases hsp : splitOnChar sep t with _ | ⟨h0, t0⟩
      · exact absurd hsp hne
      · have hne2 := splitOnChar_ne_nil sep (t ++ b)
        rcases hsb : splitOnChar sep (t ++ b) with _ | ⟨hh, tt⟩
        · exact absurd hsb hne2
        · have hib := ih b
          rw [hsp, hsb] at hib
          rcases t0 with _ | ⟨x0, xs0⟩
          · simp only [List.dropLast_single, List.nil_append, List.getLastD_cons,
              List.getLastD_nil] at hib ⊢
            rw [List.cons_append, splitOnChar_cons, if_neg h, ← hib]
          · simp only [List.dropLast_cons₂, List.getLastD_cons] at hib ⊢
            rw [List.cons_append]
            cases hib
            rfl

theorem pmProcessLines_append : ∀ (ls1 ls2 : List (List Char)) (s : PMState),
    ls2 ≠ [] →
    pmProcessLines s (ls1 ++ ls2) = pmProcessLines (ls1.foldl pmProcessLine s) ls2 := by
  intro ls1
  induction ls1 with
  | nil => intro ls2 s _; rfl
  | cons l t ih =>
    intro ls2 s h
    have h2 : t ++ ls2 ≠ [] := by
      intro hc
      rcases List.append_eq_nil.mp hc with ⟨_, h3⟩
      exact h h3
    rcases he : t ++ ls2 with _ | ⟨x, xs⟩
    · exact absurd he h2
    · calc pmProcessLines s ((l :: t) ++ ls2)
          = pmProcessLines s (l :: (x :: xs)) := by rw [List.cons_append, he]
        _ = pmProcessLines (pmProcessLine s l) (x :: xs) := by rw [pmProcessLines]
        _ = pmProcessLines (pmProcessLine s l) (t ++ ls2) := by rw [he]
        _ = pmProcessLines ((t).foldl pmProcessLine (pmProcessLine s l)) ls2 := ih ls2 _ h
        _ = pmProcessLines ((l :: t).foldl pmProcessLine s) ls2 := by rw [List.foldl_cons]

theorem checkForParameters_buffer (s : PMState) (line : List Char) (b : List Char) :
    checkForParameters { s with buffer := b } line =
      { checkForParameters s line with buffer := b } := by
  unfold checkForParameters
  by_cases h : s.app_type = ApplicationType.UNKNOWN <;> simp [h]

theorem setApplicationType_buffer (s : PMState) (app : ApplicationType) (b : List Char) :
    setApplicationType { s with buffer := b } app =
      { setApplicationType s app with buffer := b } := by
  unfold setApplicationType
  by_cases h : app = s.app_type <;> simp [h]

theorem autoDetectAppType_buffer (s : PMState) (line : List Char) (b : List Char) :
    autoDetectAppType { s with buffer := b } line =
      { autoDetectAppType s line with buffer := b } := by
  unfold autoDetectAppType
  by_cases h1 : (reSearch pmAutoFsRe true line).isSome <;>
    by_cases h2 : (reSearch pmAutoGpsRe true line).isSome <;>
      by_cases h3 : (reSearch pmAutoDtRe true line).isSome <;>
        simp [h1, h2, h3, setApplicationType_buffer] <;>
          by_cases h4 : s.app_type = ApplicationType.FLIGHT_SEQUENCER <;>
            by_cases h5 : s.app_type = ApplicationType.GPS_AUTOPILOT <;>
              by_cases h6 : s.app_type = ApplicationType.DEVICE_TEST <;>
                simp [h4, h5, h6, setApplicationType_buffer]

theorem pmProcessLine_buffer (s : PMState) (raw : List Char) (b : List Char) :
    pmProcessLine { s with buffer := b } raw = { pmProcessLine s raw with buffer := b } := by
  unfold pmProcessLine
  by_cases h : pyStrip raw = [] <;>
    simp [h, checkForParameters_buffer, autoDetectAppType_buffer]

theorem foldl_pmProcessLine_buffer : ∀ (ls : List (List Char)) (s : PMState) (b : List Char),
    ls.foldl pmProcessLine { s with buffer := b } =
      { ls.foldl pmProcessLine s with buffer := b } := by
  intro ls
  induction ls with
  | nil => intro s b; rfl
  | cons l t ih =>
    intro s b
    rw [List.foldl_cons, List.foldl_cons, pmProcessLine_buffer, ih]

theorem startsWithL_HEADER_not_GPS (l : List Char)
    (h : startsWithL (cs "HEADER,") l = true) : startsWithL (cs "GPS,") l = false := by
  rcases l with _ | ⟨a, t⟩
  · exact absurd h (by decide)
  · have hb : ('H' == a && List.isPrefixOf (cs "EADER,") t) = true := h
    simp only [Bool.and_eq_true, beq_iff_eq] at hb
    rw [← hb.1]
    rfl

theorem parseRecStep_records (acc : Option FlightHeader × List GpsRecord)
    (line : List Char) (acc2 : Option FlightHeader × List GpsRecord)
    (h : parseRecStep acc line = .ok acc2) :
    acc2.2 = acc.2 ++ (parseGpsLine line).toList := by
  unfold parseRecStep at h
  by_cases hh : startsWithL (cs "HEADER,") line = true
  · have hng := startsWithL_HEADER_not_GPS line hh
    rw [if_pos hh] at h
    have hgl : parseGpsLine line = none := by
      unfold parseGpsLine
      rw [hng]
      rfl
    rw [hgl]
    by_cases h8 : (splitOnChar ',' line).length ≥ 8
    · rw [if_pos h8] at h
      rcases h1 : pyInt ((splitOnChar ',' line).getD 2 []) with _ | v1 <;>
        rcases h2 : pyInt ((splitOnChar ',' line).getD 4 []) with _ | v2 <;>
          rcases h3 : pyInt ((splitOnChar ',' line).getD 5 []) with _ | v3 <;>
            rcases h4 : pyInt ((splitOnChar ',' line).getD 6 []) with _ | v4 <;>
              rcases h5 : pyInt ((splitOnChar ',' line).getD 7 []) with _ | v5 <;>
                rw [h1, h2, h3, h4, h5] at h <;> simp at h <;> (subst h; simp)
    · rw [if_neg h8] at h
      cases h
      simp
  · rw [if_neg hh] at h
    by_cases hg : startsWithL (cs "GPS,") line = true
    · rw [if_pos hg] at h
      rcases hp : parseGpsLine line with _ | r <;> rw [hp] at h <;> cases h <;> simp
    · rw [if_neg hg] at h
      cases h
      have hgl : parseGpsLine line = none := by
        unfold parseGpsLine
        rw [if_neg hg]
      rw [hgl]
      simp

theorem foldParse_records : ∀ (lines : List (List Char))
    (acc res : Option FlightHeader × List GpsRecord),
    foldParse acc lines = .ok res →
    res.2 = acc.2 ++ lines.filterMap parseGpsLine := by
  intro lines
  induction lines with
  | nil =>
    intro acc res h
    cases h
    simp
  | cons l t ih =>
    intro acc res h
    unfold foldParse at h
    rcases hp : parseRecStep acc l with e | acc2
    · rw [hp] at h
      simp at h
    · rw [hp] at h
      have h1 := parseRecStep_records acc l acc2 hp
      have h2 := ih acc2 res h
      rw [h2, h1, List.filterMap_cons]
      rcases parseGpsLine l with _ | r <;> simp

theorem detectApplication_fires (s : TMState) (t : ℚ) (msg : List Char)
    (k : ApplicationType) (hk : firstDetect msg = some k)
    (hg : ¬ t - s.last_detection_time < 2) :
    detectApplication s t msg = (k, { s with last_detection_time := t }) := by
  unfold detectApplication
  rw [if_neg hg, hk]

theorem detectApplication_debounced (s : TMState) (t : ℚ) (msg : List Char)
    (hg : t - s.last_detection_time < 2) :
    detectApplication s t msg = (.UNKNOWN, s) := by
  unfold detectApplication
  rw [if_pos hg]

theorem detectApplication_nomatch (s : TMState) (t : ℚ) (msg : List Char)
    (hk : firstDetect msg = none) :
    detectApplication s t msg = (.UNKNOWN, s) := by
  unfold detectApplication
  by_cases hg : t - s.last_detection_time < 2
  · rw [if_pos hg]
  · rw [if_neg hg, hk]

theorem routeMessageDetect_fires (s : TMState) (t : ℚ) (msg : List Char)
    (k : ApplicationType) (hk : firstDetect msg = some k) (hknu : k ≠ .UNKNOWN)
    (hg : ¬ t - s.last_detection_time < 2) :
    routeMessageDetect s t msg = { active_app := k, last_detection_time := t } := by
  unfold routeMessageDetect
  rw [detectApplication_fires s t msg k hk hg]
  obtain ⟨a, lt⟩ := s
  by_cases h : k = a
  · subst h
    simp [hknu]
  · simp [hknu, h]

theorem routeMessageDetect_debounced (s : TMState) (t : ℚ) (msg : List Char)
    (hg : t - s.last_detection_time < 2) :
    routeMessageDetect s t msg = s := by
  unfold routeMessageDetect
  rw [detectApplication_debounced s t msg hg]
  simp

theorem routeMessageDetect_nomatch (s : TMState) (t : ℚ) (msg : List Char)
    (hk : firstDetect msg = none) :
    routeMessageDetect s t msg = s := by
  unfold routeMessageDetect
  rw [detectApplication_nomatch s t msg hk]
  simp

theorem numericStanza_none (re : RE) (get : FSParams → Option Int)
    (set : FSParams → Option Int → FSParams) (logged : Bool) (desc : Int → List Char)
    (s : FSTabState) (data : List Char) (h : reSearch re true data = none) :
    numericStanza re get set logged desc s data = s := by
  unfold numericStanza
  rw [h]

theorem updateStore_phase_line (s : FSTabState) :
    updateParameterStore s (cs "Current Phase: READY") =
      if some (cs "READY") ≠ s.last_recorded_phase then
        addHistory { s with params := { s.params with current_phase := cs "READY" },
                            last_recorded_phase := some (cs "READY") }
          "PHASE" (cs "System ready for new flight")
      else s := by
  have r1 : reSearch motorTimeTabRe true (cs "Current Phase: READY") = none := by rfl
  have r2 : reSearch flightTimeTabRe true (cs "Current Phase: READY") = none := by rfl
  have r3 : reSearch motorSpeedTabRe true (cs "Current Phase: READY") = none := by rfl
  have r4 : reSearch dtRetractedRe true (cs "Current Phase: READY") = none := by rfl
  have r5 : reSearch dtDeployedRe true (cs "Current Phase: READY") = none := by rfl
  have r6 : reSearch dtDwellRe true (cs "Current Phase: READY") = none := by rfl
  have r7 : newPhaseOf (cs "Current Phase: READY") = some (cs "READY") := by rfl
  have r8 : reSearch gpsStatusTabRe true (cs "Current Phase: READY") = none := by rfl
  have r9 : reSearch fsTimerRe true (cs "Current Phase: READY") = none := by rfl
  unfold updateParameterStore
  simp only [numericStanza_none, r1, r2, r3, r4, r5, r6, r7, r8, r9]
  by_cases hc : some (cs "READY") ≠ s.last_recorded_phase
  · rw [if_pos hc, if_pos hc]
    rfl
  · rw [if_neg hc, if_neg hc]

theorem processSerialData_append (s : PMState) (c1 c2 : List Char) :
    processSerialData (processSerialData s c1) c2 = processSerialData s (c1 ++ c2) := by
  unfold processSerialData
  obtain ⟨L, last, he⟩ :=
    (List.eq_nil_or_concat (splitOnChar '\n' (s.buffer ++ c1))).resolve_left
      (splitOnChar_ne_nil _ _)
  rw [List.concat_eq_append] at he
  rw [he]
  rw [pmProcessLines_append L [last] _ (by simp)]
  rw [show pmProcessLines (L.foldl pmProcessLine { s with buffer := [] }) [last]
      = { L.foldl pmProcessLine { s with buffer := [] } with buffer := last } from rfl]
  rw [foldl_pmProcessLine_buffer]
  rw [← List.append_assoc, splitOnChar_append '\n' (s.buffer ++ c1) c2, he,
    List.dropLast_concat, List.getLastD_concat]
  rw [pmProcessLines_append L (splitOnChar '\n' (last ++ c2)) _ (splitOnChar_ne_nil _ _)]
  simp only []
  rw [foldl_pmProcessLine_buffer L s []]

theorem processDownloadedData_error (buf : List Char) (e : Unit)
    (hf : foldParse (none, []) (processedLines buf) = Except.error e) :
    processDownloadedData buf = DownloadResult.failed true := by
  unfold processDownloadedData
  rw [hf]

theorem processDownloadedData_ok_none (buf : List Char) (recs : List GpsRecord)
    (hf : foldParse (none, []) (processedLines buf) = Except.ok (none, recs)) :
    processDownloadedData buf = DownloadResult.failed false := by
  unfold processDownloadedData
  rw [hf]

theorem processDownloadedData_ok_some (buf : List Char) (h : FlightHeader)
    (recs : List GpsRecord)
    (hf : foldParse (none, []) (processedLines buf) = Except.ok (some h, recs)) :
    processDownloadedData buf =
      if recs ≠ [] then DownloadResult.completed h recs else DownloadResult.failed false := by
  unfold processDownloadedData
  rw [hf]

/-! ## Claim theorems -/

/-- C1: in the download buffer parse, the GPS record corrupted by a newline
inside the longitude field (raw lines `GPS,99001,7,POST_DT_DESCENT,39.246685,-`
then `77.196556`) is repaired by the merge step — the first line has 6 comma
fields with longitude field exactly `-`, so it is concatenated with the next
raw line with no separator and both lines are consumed — and in the full
test download buffer the resulting GpsFix (the third record) has
longitude equal to -77.196556. -/
theorem c1_download_line_split_repair :
    (splitOnChar ',' (cs "GPS,99001,7,POST_DT_DESCENT,39.246685,-")).length = 6
    ∧ (splitOnChar ',' (cs "GPS,99001,7,POST_DT_DESCENT,39.246685,-")).getD 5 [] = cs "-"
    ∧ processedLines (cs "GPS,99001,7,POST_DT_DESCENT,39.246685,-\n77.196556")
        = [cs "GPS,99001,7,POST_DT_DESCENT,39.246685,-" ++ cs "77.196556"]
    ∧ (DownloadResult.recordsOf (processDownloadedData testFlightBuffer)).map
        (fun r => r.timestamp_ms) = [990, 2003, 99001, 101002]
    ∧ ((DownloadResult.recordsOf (processDownloadedData testFlightBuffer)).map
        (fun r => r.longitude)).getD 2 0 = (-77196556 : ℚ) / 1000000 := by
  refine ⟨by decide, by decide, by decide, by decide, ?_⟩
  have hv : ((DownloadResult.recordsOf (processDownloadedData testFlightBuffer)).map
      (fun r => r.longitude)).getD 2 0 = (pyFloat (cs "-77.196556")).getD 0 := rfl
  have hp : (pyFloat (cs "-77.196556")).getD 0
      = (-1 : ℚ) * ((digitsToNat (cs "77") : ℚ)
          + (digitsToNat (cs "196556") : ℚ) / (10 : ℚ) ^ (cs "196556").length) := rfl
  rw [hv, hp, show digitsToNat (cs "77") = 77 from rfl,
    show digitsToNat (cs "196556") = 196556 from rfl,
    show (cs "196556").length = 6 from rfl]
  norm_num

/-- C3 counterexample: the reader thread decodes with
`data.decode('utf-8', errors='ignore')`, which silently DROPS the invalid
byte 0xFF instead of replacing it with a substitution character: the claim
that each invalid byte is replaced "rather than silently dropped" is false
on the byte chunk `[0xFF, 0x41]`. -/
theorem c3_decode_drops_not_substitutes :
    decodeUtf8Ignore [0xFF, 0x41] = [Char.ofNat 0x41]
    ∧ decodeUtf8Replace [0xFF, 0x41] = [Char.ofNat 0xFFFD, Char.ofNat 0x41]
    ∧ decodeUtf8Ignore [0xFF, 0x41] ≠ decodeUtf8Replace [0xFF, 0x41] :=
  ⟨by decide, by decide, by decide⟩

/-- C3 (amended): the decoding step never raises on invalid UTF-8 bytes and
silently DROPS each invalid byte (ASCII bytes pass through); any trailing
partial line after splitting on newline is retained in the carry-over
buffer and prepended to the next chunk, so processing two chunks
sequentially equals processing their concatenation — no line content is
lost across read boundaries. -/
theorem c3_decode_ignore_and_carryover :
    (∀ bs : List Nat, decodeUtf8Ignore (0xFF :: bs) = decodeUtf8Ignore bs)
    ∧ (∀ (b : Nat) (bs : List Nat), b < 0x80 →
        decodeUtf8Ignore (b :: bs) = Char.ofNat b :: decodeUtf8Ignore bs)
    ∧ (∀ (s : PMState) (c1 c2 : List Char),
        processSerialData (processSerialData s c1) c2 = processSerialData s (c1 ++ c2)) := by
  refine ⟨?_, ?_, fun s c1 c2 => processSerialData_append s c1 c2⟩
  · intro bs
    match bs with
    | [] => rfl
    | [c1] => simp [decodeUtf8Ignore]
    | [c1, c2] => simp [decodeUtf8Ignore]
    | c1 :: c2 :: c3 :: r => simp [decodeUtf8Ignore]
  · intro b bs hb
    match bs with
    | [] => simp [decodeUtf8Ignore, hb]
    | [c1] => simp [decodeUtf8Ignore, hb]
    | [c1, c2] => simp [decodeUtf8Ignore, hb]
    | c1 :: c2 :: c3 :: r => simp [decodeUtf8Ignore, hb]

/-- C3 witness: the amended theorem applied at concrete inputs — the
dropped invalid byte, an ASCII byte, and a parameter line split across two
chunks. -/
theorem c3_decode_ignore_and_carryover_witness :
    decodeUtf8Ignore [0xFF, 0x41] = decodeUtf8Ignore [0x41]
    ∧ decodeUtf8Ignore [0x41, 0x42] = Char.ofNat 0x41 :: decodeUtf8Ignore [0x42]
    ∧ processSerialData (processSerialData pmInit (cs "Motor Run "))
        (cs "Time: 12 seconds\n")
      = processSerialData pmInit (cs "Motor Run " ++ cs "Time: 12 seconds\n") :=
  ⟨c3_decode_ignore_and_carryover.1 [0x41],
   c3_decode_ignore_and_carryover.2.1 0x41 [0x42] (by decide),
   c3_decode_ignore_and_carryover.2.2 pmInit (cs "Motor Run ") (cs "Time: 12 seconds\n")⟩

/-- C4 counterexample: the disconnect-triggered clear does NOT restore the
state from before any line was processed: after observing `System ARMED`,
`_clear_parameters` sets `current_phase` to `DISCONNECTED` (the initial
value is `UNKNOWN`) and leaves the stale `last_recorded_phase = ARMED` in
place, so the cleared state differs from the initial state. -/
theorem c4_clear_not_initial_state :
    (clearParametersFS (updateParameterStore fsInit (cs "System ARMED"))).params.current_phase
        = cs "DISCONNECTED"
    ∧ fsInit.params.current_phase = cs "UNKNOWN"
    ∧ (clearParametersFS (updateParameterStore fsInit (cs "System ARMED"))).last_recorded_phase
        = some (cs "ARMED")
    ∧ fsInit.last_recorded_phase = none
    ∧ clearParametersFS (updateParameterStore fsInit (cs "System ARMED")) ≠ fsInit := by
  refine ⟨by decide, by decide, by decide, by decide, by decide⟩

/-- C4 (amended): the disconnect-triggered clear makes every numeric
parameter key absent again and resets the detector to `Unknown` with the
debounce timer cleared (and `ParameterMonitor.clear_parameters` empties its
map and carry-over buffer, making `get` return absent for every key) — but
it sets `current_phase` to the sentinel `DISCONNECTED` rather than the
initial `UNKNOWN`, and `last_recorded_phase` survives the clear unchanged
as a stale value into a reconnect. -/
theorem c4_clear_semantics (s : FSTabState) (m : PMState) (d : TMState) (k : String) :
    (clearParametersFS s).params.motor_run_time = none
    ∧ (clearParametersFS s).params.total_flight_time = none
    ∧ (clearParametersFS s).params.motor_speed = none
    ∧ (clearParametersFS s).params.dt_retracted = none
    ∧ (clearParametersFS s).params.dt_deployed = none
    ∧ (clearParametersFS s).params.dt_dwell = none
    ∧ (clearParametersFS s).params.current_phase = cs "DISCONNECTED"
    ∧ (clearParametersFS s).params.gps_state = cs "UNKNOWN"
    ∧ (clearParametersFS s).current_timer = cs "00:00"
    ∧ (clearParametersFS s).last_recorded_phase = s.last_recorded_phase
    ∧ (clearParametersFS s).history = s.history
    ∧ resetDetection d = tmInit
    ∧ getParameter (clearParametersPM m) k = none
    ∧ (clearParametersPM m).buffer = [] :=
  ⟨rfl, rfl, rfl, rfl, rfl, rfl, rfl, rfl, rfl, rfl, rfl, rfl, rfl, rfl⟩

/-- C5: detector debounce — when a line matching a signature fires a
detection at time `t1`, a second matching line strictly less than 2.0
seconds later yields no detection (`UNKNOWN`) and leaves the debounce time
at `t1`, while a third matching line at least 2.0 seconds after `t1`
yields a new detection. -/
theorem c5_detection_debounce (s : TMState) (t1 t2 t3 : ℚ) (m1 m2 m3 : List Char)
    (k1 k2 k3 : ApplicationType)
    (h1 : firstDetect m1 = some k1) (h2 : firstDetect m2 = some k2)
    (h3 : firstDetect m3 = some k3)
    (hg1 : ¬ t1 - s.last_detection_time < 2)
    (hlt : t2 - t1 < 2) (hge : 2 ≤ t3 - t1) :
    (detectApplication s t1 m1).1 = k1
    ∧ (detectApplication (detectApplication s t1 m1).2 t2 m2).1 = .UNKNOWN
    ∧ (detectApplication (detectApplication (detectApplication s t1 m1).2 t2 m2).2
        t3 m3).1 = k3 := by
  have e1 := detectApplication_fires s t1 m1 k1 h1 hg1
  have e2 : detectApplication { s with last_detection_time := t1 } t2 m2
      = (.UNKNOWN, { s with last_detection_time := t1 }) :=
    detectApplication_debounced _ t2 m2 (by simpa using hlt)
  have e3 : detectApplication { s with last_detection_time := t1 } t3 m3
      = (k3, { s with last_detection_time := t3 }) := by
    have := detectApplication_fires { s with last_detection_time := t1 } t3 m3 k3 h3
      (by simpa using not_lt.2 hge)
    simpa using this
  refine ⟨by rw [e1], ?_, ?_⟩
  · rw [e1]
    simp only []
    rw [e2]
  · rw [e1]
    simp only []
    rw [e2]
    simp only []
    rw [e3]

/-- C5 witness: two detections 0 seconds apart are debounced, a third 2.0
seconds later fires, with concrete signature lines for three different
application kinds. -/
theorem c5_detection_debounce_witness :
    (detectApplication tmInit 2 (cs "[APP] FlightSequencer")).1
        = ApplicationType.FLIGHT_SEQUENCER
    ∧ (detectApplication (detectApplication tmInit 2 (cs "[APP] FlightSequencer")).2 2
        (cs "[APP] GpsAutopilot")).1 = ApplicationType.UNKNOWN
    ∧ (detectApplication (detectApplication (detectApplication tmInit 2
        (cs "[APP] FlightSequencer")).2 2 (cs "[APP] GpsAutopilot")).2 4
        (cs "[APP] ButtonTest")).1 = ApplicationType.DEVICE_TEST :=
  c5_detection_debounce tmInit 2 2 4 (cs "[APP] FlightSequencer")
    (cs "[APP] GpsAutopilot") (cs "[APP] ButtonTest")
    ApplicationType.FLIGHT_SEQUENCER ApplicationType.GPS_AUTOPILOT
    ApplicationType.DEVICE_TEST (by decide) (by decide) (by decide)
    (by norm_num [tmInit]) (by norm_num) (by norm_num)

/-- C9 (implicit): whenever the repair walk judges a GPS line incomplete
(fewer than 6 comma fields, or a latitude/longitude field empty or exactly
a minus sign) and any following raw line exists, the two lines are
concatenated and both consumed unconditionally — whatever the following
line is (it is lost as an independent record); only when the incomplete
GPS line is the last line is it kept unmerged. -/
theorem c9_incomplete_gps_merge_unconditional (l next : List Char)
    (rest : List (List Char)) (hs : pyStrip l = l)
    (hg : startsWithL (cs "GPS,") l = true) (hi : isIncompleteGps l = true) :
    repairLines (l :: next :: rest) = (l ++ pyStrip next) :: repairLines rest
    ∧ repairLines [l] = [l] := by
  rcases l with _ | ⟨a, t⟩
  · exact absurd hg (by decide)
  · have hb : ('G' == a && List.isPrefixOf (cs "PS,") t) = true := hg
    simp only [Bool.and_eq_true, beq_iff_eq] at hb
    obtain ⟨ha, _⟩ := hb
    subst ha
    have f1 : startsWithL (cs "[") ('G' :: t) = false := rfl
    have f2 : startsWithL (cs "DEBUG") ('G' :: t) = false := rfl
    constructor
    · simp only [repairLines, hs, f1, f2, hg, hi]
      simp
    · simp only [repairLines, hs, f1, f2, hg, hi]
      simp

/-- C9 witness: a 4-field GPS line followed by a HEADER line — the HEADER
line is swallowed into the merged line; the same GPS line alone at the end
of the buffer is kept unmerged. -/
theorem c9_incomplete_gps_merge_unconditional_witness :
    repairLines [cs "GPS,1,2,X", cs "HEADER,F,1,true,2,10,60,165"]
      = (cs "GPS,1,2,X" ++ pyStrip (cs "HEADER,F,1,true,2,10,60,165")) :: repairLines []
    ∧ repairLines [cs "GPS,1,2,X"] = [cs "GPS,1,2,X"] :=
  c9_incomplete_gps_merge_unconditional _ _ _ (by decide) (by decide) (by decide)

/-- C2: end-to-end — feeding `[APP] FlightSequencer`, then
`[OK] Motor Run Time = 12 seconds`, then `System ARMED` from the initial
states makes the detector report `FlightSequencer` (for any feed times with
the first at least 2 seconds past the cleared debounce timer), the
parameter store hold 12 for `motor_run_time`, and the current phase equal
`ARMED`. -/
theorem c2_end_to_end_scenario (t1 t2 t3 : ℚ) (h1 : 2 ≤ t1) :
    (routeMessageDetect (routeMessageDetect (routeMessageDetect tmInit t1
        (cs "[APP] FlightSequencer")) t2 (cs "[OK] Motor Run Time = 12 seconds")) t3
        (cs "System ARMED")).active_app = ApplicationType.FLIGHT_SEQUENCER
    ∧ (updateParameterStore (updateParameterStore (updateParameterStore fsInit
        (cs "[APP] FlightSequencer")) (cs "[OK] Motor Run Time = 12 seconds"))
        (cs "System ARMED")).params.motor_run_time = some 12
    ∧ (updateParameterStore (updateParameterStore (updateParameterStore fsInit
        (cs "[APP] FlightSequencer")) (cs "[OK] Motor Run Time = 12 seconds"))
        (cs "System ARMED")).params.current_phase = cs "ARMED" := by
  refine ⟨?_, by decide, by decide⟩
  have hd1 : firstDetect (cs "[APP] FlightSequencer")
      = some ApplicationType.FLIGHT_SEQUENCER := by decide
  have hd2 : firstDetect (cs "[OK] Motor Run Time = 12 seconds")
      = some ApplicationType.FLIGHT_SEQUENCER := by decide
  have hd3 : firstDetect (cs "System ARMED") = none := by decide
  have e1 : routeMessageDetect tmInit t1 (cs "[APP] FlightSequencer")
      = { active_app := ApplicationType.FLIGHT_SEQUENCER, last_detection_time := t1 } :=
    routeMessageDetect_fires tmInit t1 _ _ hd1 (by decide)
      (by simp only [tmInit, sub_zero]; exact not_lt.2 h1)
  rw [e1]
  by_cases h2 : t2 - t1 < 2
  · rw [routeMessageDetect_debounced _ t2 _ h2]
    rw [routeMessageDetect_nomatch _ t3 _ hd3]
  · rw [routeMessageDetect_fires _ t2 _ _ hd2 (by decide) h2]
    rw [routeMessageDetect_nomatch _ t3 _ hd3]

/-- C2 witness: the scenario at concrete feed times 2, 3, 4 seconds. -/
theorem c2_end_to_end_scenario_witness :
    (routeMessageDetect (routeMessageDetect (routeMessageDetect tmInit 2
        (cs "[APP] FlightSequencer")) 3 (cs "[OK] Motor Run Time = 12 seconds")) 4
        (cs "System ARMED")).active_app = ApplicationType.FLIGHT_SEQUENCER
    ∧ (updateParameterStore (updateParameterStore (updateParameterStore fsInit
        (cs "[APP] FlightSequencer")) (cs "[OK] Motor Run Time = 12 seconds"))
        (cs "System ARMED")).params.motor_run_time = some 12
    ∧ (updateParameterStore (updateParameterStore (updateParameterStore fsInit
        (cs "[APP] FlightSequencer")) (cs "[OK] Motor Run Time = 12 seconds"))
        (cs "System ARMED")).params.current_phase = cs "ARMED" :=
  c2_end_to_end_scenario 2 3 4 (le_refl 2)

/-- C6 counterexample: a buffer whose HEADER line has 8 comma fields but a
non-integer `duration_ms` (`xx`) and which also contains a perfectly
parseable GPS record resolves to `Failed` via the uncaught `ValueError`
(the outer `except` path), even though a ≥8-field HEADER line and a
recoverable GPS record are present — refuting "Failed exactly when no
≥8-field HEADER or zero GPS records were recovered". -/
theorem c6_header_valueerror_fails_parse :
    processDownloadedData headerCorruptBuffer = DownloadResult.failed true
    ∧ (processedLines headerCorruptBuffer).any
        (fun l => startsWithL (cs "HEADER,") l && decide ((splitOnChar ',' l).length ≥ 8))
        = true
    ∧ (parseGpsLine (cs "GPS,1,2,N,39.0,-77.0,100.0")).isSome = true
    ∧ (foldParse (none, []) (processedLines headerCorruptBuffer)).isOk = false :=
  ⟨by decide, by decide, by decide, by decide⟩

/-- C6 (amended): malformed GPS records are skipped without aborting the
parse (they leave the accumulator untouched); a completed parse always
carries at least one record; and the parse resolves to `Failed` exactly
when the header loop raises (a ≥8-field HEADER line with a malformed
integer field), no header was recovered, or zero GPS records were
recovered — otherwise it completes with whatever subset parsed. -/
theorem c6_failed_exactly_when (buf : List Char) :
    (∀ (st : Option FlightHeader × List GpsRecord) (line : List Char),
        startsWithL (cs "GPS,") line = true → parseGpsLine line = none →
        parseRecStep st line = Except.ok st)
    ∧ (∀ (h : FlightHeader) (recs : List GpsRecord),
        processDownloadedData buf = DownloadResult.completed h recs → recs ≠ [])
    ∧ ((∀ (h : FlightHeader) (recs : List GpsRecord),
          processDownloadedData buf ≠ DownloadResult.completed h recs) ↔
        (foldParse (none, []) (processedLines buf) = Except.error ()
         ∨ (∃ recs, foldParse (none, []) (processedLines buf) = Except.ok (none, recs))
         ∨ (∃ hh, foldParse (none, []) (processedLines buf) = Except.ok (some hh, [])))) := by
  refine ⟨?_, ?_, ?_⟩
  · intro st line hg hp
    have hnh : startsWithL (cs "HEADER,") line = false := by
      rcases line with _ | ⟨a, t⟩
      · exact absurd hg (by decide)
      · have hb : ('G' == a && List.isPrefixOf (cs "PS,") t) = true := hg
        simp only [Bool.and_eq_true, beq_iff_eq] at hb
        obtain ⟨ha, _⟩ := hb
        subst ha
        rfl
    unfold parseRecStep
    rw [hnh]
    rw [if_neg (by simp)]
    rw [if_pos hg, hp]
  · intro h recs hc
    rcases hf : foldParse (none, []) (processedLines buf) with e | ⟨oh, rr⟩
    · rw [processDownloadedData_error buf e hf] at hc
      simp at hc
    · rcases oh with _ | hh
      · rw [processDownloadedData_ok_none buf rr hf] at hc
        simp at hc
      · rw [processDownloadedData_ok_some buf hh rr hf] at hc
        by_cases hr : rr = []
        · rw [if_neg (by simp [hr])] at hc
          simp at hc
        · rw [if_pos hr] at hc
          cases hc
          exact hr
  · constructor
    · intro hall
      rcases hf : foldParse (none, []) (processedLines buf) with e | ⟨oh, rr⟩
      · left
        cases e
        rfl
      · rcases oh with _ | hh
        · right; left
          exact ⟨rr, rfl⟩
        · by_cases hr : rr = []
          · right; right
            exact ⟨hh, by rw [hr]⟩
          · exfalso
            apply hall hh rr
            rw [processDownloadedData_ok_some buf hh rr hf, if_pos hr]
    · intro hdis h recs hc
      rcases hdis with he | ⟨rr, hok⟩ | ⟨hh, hok⟩
      · rw [processDownloadedData_error buf () he] at hc
        simp at hc
      · rw [processDownloadedData_ok_none buf rr hok] at hc
        simp at hc
      · rw [processDownloadedData_ok_some buf hh [] hok, if_neg (by simp)] at hc
        simp at hc

/-- C6 witness: a malformed 4-field GPS line leaves the parse accumulator
untouched instead of aborting. -/
theorem c6_failed_exactly_when_witness :
    parseRecStep (none, []) (cs "GPS,1,2,X") = Except.ok (none, []) :=
  (c6_failed_exactly_when []).1 (none, []) (cs "GPS,1,2,X") (by decide) (by decide)

/-- C7: phase-update idempotence — from any store state not already
recording phase READY, feeding `Current Phase: READY` records the phase
and appends exactly one PHASE history entry, and feeding the same line a
second time is a complete no-op on the state (no duplicate entry). -/
theorem c7_phase_update_idempotent (s : FSTabState)
    (h : s.last_recorded_phase ≠ some (cs "READY")) :
    (updateParameterStore s (cs "Current Phase: READY")).params.current_phase = cs "READY"
    ∧ (updateParameterStore s (cs "Current Phase: READY")).history
        = s.history ++ [("PHASE", cs "System ready for new flight")]
    ∧ updateParameterStore (updateParameterStore s (cs "Current Phase: READY"))
        (cs "Current Phase: READY")
      = updateParameterStore s (cs "Current Phase: READY") := by
  have e1 := updateStore_phase_line s
  rw [if_pos (show some (cs "READY") ≠ s.last_recorded_phase from fun hc => h hc.symm)] at e1
  refine ⟨by rw [e1]; rfl, by rw [e1]; rfl, ?_⟩
  have e2 := updateStore_phase_line (updateParameterStore s (cs "Current Phase: READY"))
  rw [e1] at e2 ⊢
  rw [if_neg (by simp [addHistory])] at e2
  exact e2

/-- C7 witness: the idempotence scenario from the initial store state. -/
theorem c7_phase_update_idempotent_witness :
    (updateParameterStore fsInit (cs "Current Phase: READY")).params.current_phase
        = cs "READY"
    ∧ (updateParameterStore fsInit (cs "Current Phase: READY")).history
        = fsInit.history ++ [("PHASE", cs "System ready for new flight")]
    ∧ updateParameterStore (updateParameterStore fsInit (cs "Current Phase: READY"))
        (cs "Current Phase: READY")
      = updateParameterStore fsInit (cs "Current Phase: READY") :=
  c7_phase_update_idempotent fsInit (by decide)

/-- C8 counterexample: the parser does not enforce timestamp monotonicity —
a completed download whose buffer lists timestamps 500 then 100 yields a
FlightRecordSet whose GpsFix timestamps are NOT non-decreasing. -/
theorem c8_timestamps_not_enforced_monotonic :
    (DownloadResult.recordsOf (processDownloadedData outOfOrderBuffer)).map
        (fun r => r.timestamp_ms) = [500, 100]
    ∧ ¬ List.Chain' (fun a b : GpsRecord => a.timestamp_ms ≤ b.timestamp_ms)
        (DownloadResult.recordsOf (processDownloadedData outOfOrderBuffer)) := by
  have h1 : (DownloadResult.recordsOf (processDownloadedData outOfOrderBuffer)).map
      (fun r => r.timestamp_ms) = [500, 100] := by decide
  refine ⟨h1, fun hch => ?_⟩
  have hm := (List.chain'_map (fun r : GpsRecord => r.timestamp_ms)).mpr hch
  rw [h1] at hm
  simp only [List.chain'_cons, List.chain'_singleton, and_true] at hm
  omega

/-- C8 (amended): the parse emits GpsFix records in repaired-buffer order —
in every completed FlightRecordSet the record list equals, in order, the
successfully parsed GPS lines of the repaired buffer — so the timestampMs
values are monotonic non-decreasing precisely when the parsed lines carry
non-decreasing timestamps; the parser itself adds no such enforcement. -/
theorem c8_parse_preserves_buffer_order (buf : List Char) (h : FlightHeader)
    (recs : List GpsRecord)
    (hc : processDownloadedData buf = DownloadResult.completed h recs) :
    recs = (processedLines buf).filterMap parseGpsLine
    ∧ (List.Chain' (fun a b : GpsRecord => a.timestamp_ms ≤ b.timestamp_ms)
        ((processedLines buf).filterMap parseGpsLine) →
      List.Chain' (fun a b : GpsRecord => a.timestamp_ms ≤ b.timestamp_ms) recs) := by
  have hf : ∃ oh, foldParse (none, []) (processedLines buf) = Except.ok (oh, recs) := by
    rcases hff : foldParse (none, []) (processedLines buf) with e | ⟨oh, rr⟩
    · rw [processDownloadedData_error buf e hff] at hc
      simp at hc
    · rcases oh with _ | hh
      · rw [processDownloadedData_ok_none buf rr hff] at hc
        simp at hc
      · rw [processDownloadedData_ok_some buf hh rr hff] at hc
        by_cases hr : rr = []
        · rw [if_neg (by simp [hr])] at hc
          simp at hc
        · rw [if_pos hr] at hc
          cases hc
          exact ⟨some h, rfl⟩
  obtain ⟨oh, hf⟩ := hf
  have hrec := foldParse_records (processedLines buf) (none, []) (oh, recs) hf
  simp only [List.nil_append] at hrec
  exact ⟨hrec, fun hch => hrec ▸ hch⟩

/-- C8 witness: the test download buffer completes with records in buffer
order, whose timestamps are non-decreasing. -/
theorem c8_parse_preserves_buffer_order_witness :
    List.Chain' (fun a b : GpsRecord => a.timestamp_ms ≤ b.timestamp_ms)
      (DownloadResult.recordsOf (processDownloadedData testFlightBuffer)) := by
  rcases hr : processDownloadedData testFlightBuffer with ⟨h, recs⟩ | b
  · have hts : ((processedLines testFlightBuffer).filterMap parseGpsLine).map
        (fun r => r.timestamp_ms) = [990, 2003, 99001, 101002] := by decide
    have hch : List.Chain' (fun a b : GpsRecord => a.timestamp_ms ≤ b.timestamp_ms)
        ((processedLines testFlightBuffer).filterMap parseGpsLine) := by
      apply (List.chain'_map (fun r : GpsRecord => r.timestamp_ms)).mp
      rw [hts]
      simp only [List.chain'_cons, List.chain'_singleton, and_true]
      omega
    have hmono := (c8_parse_preserves_buffer_order testFlightBuffer h recs hr).2 hch
    simpa [DownloadResult.recordsOf] using hmono
  · simp [DownloadResult.recordsOf]

/-- C10 (implicit): in `process_serial_data` the parameter-extraction pass
runs before auto-detection — extraction under `Unknown` is a no-op for any
state and line, so the startup line `Motor Run Time: 12 seconds` (which
both triggers FlightSequencer detection and matches that kind's
`motor_run_time` pattern) contributes no parameter value, while the very
same line processed again under the newly detected kind sets
`motor_run_time = 12`. -/
theorem c10_extraction_before_detection :
    (∀ (s : PMState) (line : List Char), s.app_type = ApplicationType.UNKNOWN →
        checkForParameters s line = s)
    ∧ processSerialData pmInit (cs "Motor Run Time: 12 seconds\n")
        = { current_parameters := [], buffer := [],
            app_type := ApplicationType.FLIGHT_SEQUENCER }
    ∧ getParameter (processSerialData pmInit (cs "Motor Run Time: 12 seconds\n"))
        "motor_run_time" = none
    ∧ processSerialData (processSerialData pmInit (cs "Motor Run Time: 12 seconds\n"))
        (cs "Motor Run Time: 12 seconds\n")
      = { current_parameters := [("motor_run_time", PValue.int 12)], buffer := [],
          app_type := ApplicationType.FLIGHT_SEQUENCER } := by
  refine ⟨?_, by decide, by decide, by decide⟩
  intro s line hu
  unfold checkForParameters
  rw [if_pos hu]

/-- C10 witness: the no-op extraction applied at the initial monitor
state. -/
theorem c10_extraction_before_detection_witness :
    checkForParameters pmInit (cs "Motor Run Time: 12 seconds") = pmInit :=
  c10_extraction_before_detection.1 pmInit (cs "Motor Run Time: 12 seconds") rfl

end FFS